import Mathlib

/-! Book Catalog Service: the request-handling pipeline of `testserver.js`.

A shallow embedding of the eight Express route handlers of `src/testserver.js`.

* `JsValue` models every value a field of the parsed JSON body can hold: an absent key,
  `null`, booleans, numbers (zero, infinities and finite decimals), strings, arrays and
  objects.
* `ToString`, `parseInt`, truthiness, `isNaN` and the relational operators follow
  ECMAScript; `ToString` throws on an object with an own `toString` key, and `parseInt`
  rounds the integer it reads to a double.
* `sanitizeHtml` (the `sanitize-html` dependency, which may throw),
  `new Date().getFullYear()` and the MariaDB pool are inputs of the handlers (`Env`).
* `try / catch / finally` is modelled by `Completion` and `catchFinally`; the calls made
  on the pool are recorded in a trace of `Event`s.
-/

namespace BookApi

/-! ## JavaScript values -/

/-- JavaScript strings, as lists of characters. -/
abbrev JsString := List Char

/-- Error values thrown by the sanitizer, by `ToString`, by the pool or by the driver. -/
abbrev JsError := String

/-- A digit string `d₁ d₂ … d_k` with `d₁` in `1..9` and the others in `0..9`. -/
def isDecimal : JsString → Bool
  | [] => false
  | c :: rest =>
    decide ('1' ≤ c ∧ c ≤ '9') && rest.all (fun d => decide ('0' ≤ d ∧ d ≤ '9'))

/-- JavaScript numbers that `JSON.parse` produces. A non-zero finite number is given the
way `Number::toString` describes it: sign, decimal digits `s = d₁ … d_k` and the integer
`n` with value `s × 10^(n - k)`. Every non-zero finite double is `finite` of its shortest
round-trip digits; `1965` is `finite false "1965" 4`, `3000` is `finite false "3" 4`,
`10^21` is `finite false "1" 22` and `0.5` is `finite false "5" 0`. -/
inductive JsNumber
  | zero (negative : Bool)
  | infinity (negative : Bool)
  | finite (negative : Bool) (digits : JsString) (n : Int) (wf : isDecimal digits = true)

/-- Removes the zeros at the end of a digit string. -/
def dropTrailingZeros (ds : JsString) : JsString :=
  (ds.reverse.dropWhile (fun c => c == '0')).reverse

/-- The number with the value of a natural number literal: `0` is `+0`, and a positive
`m` has the decimal digits of `m` without trailing zeros and `n` the number of digits of
`m`. Below `2^53` every natural number is a double and these are its shortest round-trip
digits. -/
def JsNumber.ofNat (m : Nat) : JsNumber :=
  if h : isDecimal (dropTrailingZeros (Nat.toDigits 10 m)) = true then
    .finite false (dropTrailingZeros (Nat.toDigits 10 m)) (Nat.toDigits 10 m).length h
  else .zero false

instance (m : Nat) : OfNat JsNumber m := ⟨JsNumber.ofNat m⟩

/-- The values a field of the parsed JSON body can hold. `undefined` is an absent key. -/
inductive JsValue
  | undefined
  | null
  | bool (b : Bool)
  | number (x : JsNumber)
  | string (s : JsString)
  | array (items : List JsValue)
  | object (fields : List (JsString × JsValue))

/-- The result of `parseInt`: `NaN`, an integer-valued double or an infinity. `-0` is
`int 0`. -/
inductive JsNum
  | nan
  | int (n : Int)
  | infinity (negative : Bool)
deriving DecidableEq

/-- ECMAScript `ToBoolean`: absent, `null`, `false`, `+0`, `-0` and the empty string are
falsy; every array and object is truthy. -/
def truthy : JsValue → Bool
  | .undefined => false
  | .null => false
  | .bool b => b
  | .number (.zero _) => false
  | .number _ => true
  | .string s => !s.isEmpty
  | .array _ => true
  | .object _ => true

/-- The exponent part of `Number::toString`: `e`, the sign of `e` and its digits. -/
def exponentPart (e : Int) : JsString :=
  'e' :: (if e < 0 then '-' else '+') :: Nat.toDigits 10 e.natAbs

/-- Steps 7-11 of `Number::toString` for the digits `s` (`k` of them) and `n`: plain
digits followed by zeros when `k ≤ n ≤ 21`, a decimal point inside the digits when
`0 < n ≤ 21`, `0.` and zeros before the digits when `-6 < n ≤ 0`, and exponent form
otherwise. -/
def digitsToString (digits : JsString) (n : Int) : JsString :=
  let k : Int := digits.length
  if k ≤ n ∧ n ≤ 21 then digits ++ List.replicate (n - k).toNat '0'
  else if 0 < n ∧ n ≤ 21 then digits.take n.toNat ++ '.' :: digits.drop n.toNat
  else if -6 < n ∧ n ≤ 0 then '0' :: '.' :: (List.replicate (-n).toNat '0' ++ digits)
  else match digits with
    | [] => exponentPart (n - 1)
    | [d] => d :: exponentPart (n - 1)
    | d :: rest => d :: '.' :: (rest ++ exponentPart (n - 1))

/-- ECMAScript `Number::toString` with radix 10. -/
def JsNumber.toString : JsNumber → JsString
  | .zero _ => "0".toList
  | .infinity false => "Infinity".toList
  | .infinity true => "-Infinity".toList
  | .finite false digits n _ => digitsToString digits n
  | .finite true digits n _ => '-' :: digitsToString digits n

/-- The error `ToString` throws on an object that has no callable `toString`. -/
def cannotConvert : JsError := "TypeError: Cannot convert object to primitive value"

mutual
/-- ECMAScript `ToString` on body values. An array is the `join` of its elements. An
object prints as `[object Object]`, unless it has an own key `toString`: a JSON value is
never callable, so `OrdinaryToPrimitive` finds no method that returns a primitive and
throws a `TypeError`. -/
def ToString : JsValue → Except JsError JsString
  | .undefined => .ok "undefined".toList
  | .null => .ok "null".toList
  | .bool true => .ok "true".toList
  | .bool false => .ok "false".toList
  | .number x => .ok x.toString
  | .string s => .ok s
  | .array items => joinItems items
  | .object fields =>
    if fields.any (fun f => f.1 == "toString".toList) then .error cannotConvert
    else .ok "[object Object]".toList
/-- `Array.prototype.join` with the separator `,`: `null` elements give the empty string,
the others are converted with `ToString`. -/
def joinItems : List JsValue → Except JsError JsString
  | [] => .ok []
  | [.null] => .ok []
  | [.undefined] => .ok []
  | [v] => ToString v
  | .null :: rest => (joinItems rest).map (fun t => ',' :: t)
  | .undefined :: rest => (joinItems rest).map (fun t => ',' :: t)
  | v :: rest =>
    match ToString v with
    | .error e => .error e
    | .ok s => (joinItems rest).map (fun t => s ++ ',' :: t)
end

/-- ECMAScript `StrWhiteSpaceChar` (white space and line terminators). -/
def isStrWhiteSpaceChar (c : Char) : Bool :=
  let n := c.toNat
  n == 0x09 || n == 0x0A || n == 0x0B || n == 0x0C || n == 0x0D || n == 0x20 ||
  n == 0xA0 || n == 0x1680 || (0x2000 ≤ n && n ≤ 0x200A) || n == 0x2028 ||
  n == 0x2029 || n == 0x202F || n == 0x205F || n == 0x3000 || n == 0xFEFF

/-- Value of an alphanumeric character as a digit (`0-9`, `a-z`, `A-Z`). -/
def digitValue (c : Char) : Option Nat :=
  let n := c.toNat
  if 48 ≤ n ∧ n ≤ 57 then some (n - 48)
  else if 97 ≤ n ∧ n ≤ 122 then some (n - 97 + 10)
  else if 65 ≤ n ∧ n ≤ 90 then some (n - 65 + 10)
  else none

/-- Value of a character as a digit of radix `R`, if it is one. -/
def radixDigit (R : Nat) (c : Char) : Option Nat :=
  (digitValue c).filter (fun d => d < R)

/-- Step 3-4 of `parseInt`: read and remove a leading sign. -/
def stripSign : JsString → Int × JsString
  | '-' :: r => (-1, r)
  | '+' :: r => (1, r)
  | s => (1, s)

/-- Step 8-9 of `parseInt` with radix undefined: `0x` / `0X` selects radix 16, else 10. -/
def stripRadix : JsString → Nat × JsString
  | '0' :: 'x' :: r => (16, r)
  | '0' :: 'X' :: r => (16, r)
  | s => (10, s)

/-- The mathematical integer denoted by a string of radix-`R` digits. -/
def radixValue (R : Nat) (z : JsString) : Nat :=
  z.foldl (fun acc c => acc * R + (radixDigit R c).getD 0) 0

/-- The double nearest to a natural number (ties to even), or `none` when it overflows to
`Infinity`. Below `2^53` every integer is a double. -/
def roundToDouble (m : Nat) : Option Nat :=
  if m < 2 ^ 53 then some m
  else
    let e := (Nat.toDigits 2 m).length - 53
    let q := m / 2 ^ e
    let r := m % 2 ^ e
    let q1 := if 2 * r > 2 ^ e ∨ (2 * r = 2 ^ e ∧ q % 2 = 1) then q + 1 else q
    if q1 * 2 ^ e < 2 ^ 1024 then some (q1 * 2 ^ e) else none

/-- ECMAScript `parseInt(string)` with radix undefined: skip white space, read a sign and
a `0x` prefix, read the longest run of digits (`NaN` if there is none), and return the
signed double nearest to the integer read (all digits are read, as V8 does). -/
def parseIntStr (input : JsString) : JsNum :=
  let s := input.dropWhile isStrWhiteSpaceChar
  let p := stripSign s
  let q := stripRadix p.2
  let z := q.2.takeWhile (fun c => (radixDigit q.1 c).isSome)
  if z.isEmpty then .nan
  else match roundToDouble (radixValue q.1 z) with
    | some m => .int (p.1 * (m : Int))
    | none => .infinity (decide (p.1 < 0))

/-- The call `parseInt(v)`: the argument is first converted with `ToString`, which may
throw. -/
def parseInt (v : JsValue) : Except JsError JsNum :=
  (ToString v).map parseIntStr

/-- The call `isNaN(x)` on a number. -/
def JsNum.isNaN : JsNum → Bool
  | .nan => true
  | .int _ => false
  | .infinity _ => false

/-- The expression `!x` on a number: `NaN` and `0` are falsy. -/
def JsNum.falsy : JsNum → Bool
  | .nan => true
  | .int n => n == 0
  | .infinity _ => false

/-- The expression `x < k`; a comparison with `NaN` is false. -/
def JsNum.lt : JsNum → Int → Bool
  | .nan, _ => false
  | .int n, k => decide (n < k)
  | .infinity negative, _ => negative

/-- The expression `x > k`; a comparison with `NaN` is false. -/
def JsNum.gt : JsNum → Int → Bool
  | .nan, _ => false
  | .int n, k => decide (n > k)
  | .infinity negative, _ => !negative

/-! ## Requests, statements, responses -/

/-- The three fields the handlers read from `req.body`. -/
structure ReqBody where
  title : JsValue := .undefined
  author : JsValue := .undefined
  published_year : JsValue := .undefined

/-- The object `updates` built by `PATCH /books/:id`; a key is present when its field is
`some`. Keys are inserted in the order title, author, published_year. -/
structure Updates where
  title : Option JsString := none
  author : Option JsString := none
  published_year : Option JsNum := none
deriving DecidableEq

/-- The expression `Object.keys(updates).length`. -/
def Updates.keyCount (u : Updates) : Nat :=
  (if u.title.isSome then 1 else 0) + (if u.author.isSome then 1 else 0) +
    (if u.published_year.isSome then 1 else 0)

/-- A value bound to a `?` placeholder. -/
inductive SqlParam
  | text (s : JsString)
  | number (n : JsNum)
  | updates (u : Updates)
deriving DecidableEq

/-- A parameterized statement as passed to `conn.query`. -/
structure Statement where
  sql : String
  params : List SqlParam
deriving DecidableEq

/-- A row returned by a SELECT. -/
abbrev Row := List (String × JsValue)

/-- What `conn.query` resolves to, as far as the handlers read it: the row array of a
SELECT (`rows`) and `Number(result.insertId)` of an INSERT. -/
structure QueryResult where
  rows : List Row := []
  insertId : Int := 0

/-- Outcomes of the calls on the MariaDB pool during one request: `getConnection`
resolves or throws, and so does `conn.query` on each statement. -/
structure Pool where
  getConnection : Except JsError Unit
  query : Statement → Except JsError QueryResult

/-- JSON bodies sent by the handlers. -/
inductive ResBody
  | error (description : String)
  | message (message : String)
  | created (message : String) (id : Int)
  | row (r : Row)
  | rows (rs : List Row)
  | empty

/-- An HTTP response: status and body. -/
structure Response where
  status : Nat
  body : ResBody

/-- Calls made on the pool and on the connection. -/
inductive Event
  | getConnection
  | query (s : Statement)
  | release
deriving DecidableEq

/-- State of one handler invocation: whether `conn` has been assigned, the pool events so
far, the response sent and what `console.error` recorded. -/
structure Ctx where
  conn : Bool := false
  trace : List Event := []
  response : Option Response := none
  log : List (String × JsError) := []

/-- How a `try` block ends: it finished or returned, or it threw. -/
inductive Completion
  | normal (c : Ctx)
  | threw (e : JsError) (c : Ctx)

/-- What the handlers take from their surroundings: the sanitizer of the `sanitize-html`
dependency (it returns a string or throws), the value of `new Date().getFullYear()` (a
year of the common era, so a natural number) and the pool. -/
structure Env where
  sanitizeHtml : JsValue → Except JsError JsString
  currentYear : Nat
  pool : Pool

/-! ## Building blocks of the handlers -/

/-- The call `sanitizeHtml(v)` followed by `k`; a throw ends the `try` block. -/
def sanitizeHtml (env : Env) (v : JsValue) (c : Ctx) (k : JsString → Completion) :
    Completion :=
  match env.sanitizeHtml v with
  | .error e => .threw e c
  | .ok s => k s

/-- The call `parseInt(v)` followed by `k`; a throw ends the `try` block. -/
def evalParseInt (v : JsValue) (c : Ctx) (k : JsNum → Completion) : Completion :=
  match parseInt v with
  | .error e => .threw e c
  | .ok n => k n

/-- The statement `conn = await pool.getConnection()` followed by `k`. -/
def getConnection (pool : Pool) (c : Ctx) (k : Ctx → Completion) : Completion :=
  match pool.getConnection with
  | .error e => .threw e { c with trace := c.trace ++ [.getConnection] }
  | .ok _ => k { c with conn := true, trace := c.trace ++ [.getConnection] }

/-- The expression `await conn.query(s)` followed by `k`. -/
def query (pool : Pool) (s : Statement) (c : Ctx)
    (k : QueryResult → Ctx → Completion) : Completion :=
  match pool.query s with
  | .error e => .threw e { c with trace := c.trace ++ [.query s] }
  | .ok result => k result { c with trace := c.trace ++ [.query s] }

/-- Sending a response ends the `try` block normally. -/
def respond (r : Response) (c : Ctx) : Completion :=
  .normal { c with response := some r }

/-- The response of every `catch` block. -/
def internalServerError : Response := ⟨500, .error "Internal server error"⟩

/-- The `finally` block: `if (conn) conn.release()`. -/
def finallyRelease (c : Ctx) : Ctx :=
  if c.conn then { c with trace := c.trace ++ [.release] } else c

/-- The `catch` block (log the error under `label`, answer 500) and the `finally` block. -/
def catchFinally (label : String) : Completion → Ctx
  | .normal c => finallyRelease c
  | .threw e c =>
    finallyRelease { c with log := c.log ++ [(label, e)], response := some internalServerError }

/-! ## The eight route handlers -/

/-- The `try` block of `app.get('/books')`. -/
def getBooksTry (env : Env) : Completion :=
  getConnection env.pool {} fun c =>
  query env.pool ⟨"SELECT * FROM books", []⟩ c fun result c =>
  respond ⟨200, .rows result.rows⟩ c

/-- Handler `app.get('/books')`. -/
def getBooks (env : Env) : Ctx :=
  catchFinally "Error in /books:" (getBooksTry env)

/-- The SELECT of `app.get('/books/:id')`. -/
def selectBook (id : JsString) : Statement :=
  ⟨"SELECT * FROM books WHERE id = ?", [.text id]⟩

/-- The `try` block of `app.get('/books/:id')`. -/
def getBookTry (env : Env) (id : JsString) : Completion :=
  getConnection env.pool {} fun c =>
  query env.pool (selectBook id) c fun result c =>
  match result.rows with
  | [] => respond ⟨404, .error "Book not found"⟩ c
  | r :: _ => respond ⟨200, .row r⟩ c

/-- Handler `app.get('/books/:id')`. -/
def getBook (env : Env) (id : JsString) : Ctx :=
  catchFinally "Error in /books/:id:" (getBookTry env id)

/-- The `try` block of `app.get('/authors')`. -/
def getAuthorsTry (env : Env) : Completion :=
  getConnection env.pool {} fun c =>
  query env.pool ⟨"SELECT DISTINCT author FROM books", []⟩ c fun result c =>
  respond ⟨200, .rows result.rows⟩ c

/-- Handler `app.get('/authors')`. -/
def getAuthors (env : Env) : Ctx :=
  catchFinally "Error in /authors:" (getAuthorsTry env)

/-- The SELECT of `app.get('/authors/:id')`. -/
def selectAuthor (id : JsString) : Statement :=
  ⟨"SELECT * FROM authors WHERE id = ?", [.text id]⟩

/-- The `try` block of `app.get('/authors/:id')`. -/
def getAuthorTry (env : Env) (id : JsString) : Completion :=
  getConnection env.pool {} fun c =>
  query env.pool (selectAuthor id) c fun result c =>
  match result.rows with
  | [] => respond ⟨404, .error "Author not found"⟩ c
  | r :: _ => respond ⟨200, .row r⟩ c

/-- Handler `app.get('/authors/:id')`. -/
def getAuthor (env : Env) (id : JsString) : Ctx :=
  catchFinally "" (getAuthorTry env id)

/-- The INSERT of `app.post('/books')`. -/
def insertBook (title author : JsString) (published_year : JsNum) : Statement :=
  ⟨"INSERT INTO books (title, author, published_year) VALUES (?, ?, ?)",
    [.text title, .text author, .number published_year]⟩

/-- The `try` block of `app.post('/books')` from the validation on, with the sanitized
title and author and the parsed year. -/
def postBooksValidate (env : Env) (title author : JsString) (published_year : JsNum) :
    Completion :=
  if title.isEmpty || author.isEmpty || published_year.isNaN then
    respond ⟨400, .error "Title, author, and published year are required"⟩ {}
  else if published_year.lt 0 || published_year.gt env.currentYear then
    respond ⟨400, .error "Invalid published year"⟩ {}
  else
    getConnection env.pool {} fun c =>
    query env.pool (insertBook title author published_year) c fun result c =>
    respond ⟨201, .created "Book created successfully" result.insertId⟩ c

/-- The `try` block of `app.post('/books')`. -/
def postBooksTry (env : Env) (body : ReqBody) : Completion :=
  sanitizeHtml env body.title {} fun title =>
  sanitizeHtml env body.author {} fun author =>
  evalParseInt body.published_year {} fun published_year =>
  postBooksValidate env title author published_year

/-- Handler `app.post('/books')`. -/
def postBooks (env : Env) (body : ReqBody) : Ctx :=
  catchFinally "Error in POST /books:" (postBooksTry env body)

/-- The UPDATE of `app.patch('/books/:id')`. -/
def updateBookSet (updates : Updates) (id : JsNum) : Statement :=
  ⟨"UPDATE books SET ? WHERE id = ?", [.updates updates, .number id]⟩

/-- The part of the `try` block of `app.patch('/books/:id')` after `updates` is built. -/
def patchBookSend (env : Env) (id : JsNum) (updates : Updates) : Completion :=
  if updates.keyCount == 0 then
    respond ⟨400, .error "No valid fields to update"⟩ {}
  else
    getConnection env.pool {} fun c =>
    query env.pool (updateBookSet updates id) c fun _ c =>
    respond ⟨200, .message "Book updated successfully"⟩ c

/-- The `try` block of `app.patch('/books/:id')` from `if (req.body.published_year)` on. -/
def patchBookYear (env : Env) (id : JsNum) (body : ReqBody) (updates : Updates) :
    Completion :=
  if truthy body.published_year then
    evalParseInt body.published_year {} fun year =>
    if year.lt 0 || year.gt env.currentYear then
      respond ⟨400, .error "Invalid published year"⟩ {}
    else
      patchBookSend env id { updates with published_year := some year }
  else
    patchBookSend env id updates

/-- The `try` block of `app.patch('/books/:id')` from `if (req.body.author)` on. -/
def patchBookAuthor (env : Env) (id : JsNum) (body : ReqBody) (updates : Updates) :
    Completion :=
  if truthy body.author then
    sanitizeHtml env body.author {} fun author =>
    patchBookYear env id body { updates with author := some author }
  else
    patchBookYear env id body updates

/-- The `try` block of `app.patch('/books/:id')`. -/
def patchBookTry (env : Env) (id : JsString) (body : ReqBody) : Completion :=
  let id := parseIntStr id
  let updates : Updates := {}
  if truthy body.title then
    sanitizeHtml env body.title {} fun title =>
    patchBookAuthor env id body { updates with title := some title }
  else
    patchBookAuthor env id body updates

/-- Handler `app.patch('/books/:id')`. -/
def patchBook (env : Env) (id : JsString) (body : ReqBody) : Ctx :=
  catchFinally "Error in PATCH /books/:id:" (patchBookTry env id body)

/-- The UPDATE of `app.put('/books/:id')`. -/
def replaceBook (title author : JsString) (published_year id : JsNum) : Statement :=
  ⟨"UPDATE books SET title = ?, author = ?, published_year = ? WHERE id = ?",
    [.text title, .text author, .number published_year, .number id]⟩

/-- The `try` block of `app.put('/books/:id')` from the validation on, with the parsed id,
the sanitized title and author and the parsed year. -/
def putBookValidate (env : Env) (id : JsNum) (title author : JsString)
    (published_year : JsNum) : Completion :=
  if title.isEmpty || author.isEmpty || published_year.falsy then
    respond ⟨400, .error "Title, author, and published year are required"⟩ {}
  else if published_year.lt 0 || published_year.gt env.currentYear then
    respond ⟨400, .error "Invalid published year"⟩ {}
  else
    getConnection env.pool {} fun c =>
    query env.pool (replaceBook title author published_year id) c fun _ c =>
    respond ⟨200, .message "Book replaced successfully"⟩ c

/-- The `try` block of `app.put('/books/:id')`. -/
def putBookTry (env : Env) (id : JsString) (body : ReqBody) : Completion :=
  let id := parseIntStr id
  sanitizeHtml env body.title {} fun title =>
  sanitizeHtml env body.author {} fun author =>
  evalParseInt body.published_year {} fun published_year =>
  putBookValidate env id title author published_year

/-- Handler `app.put('/books/:id')`. -/
def putBook (env : Env) (id : JsString) (body : ReqBody) : Ctx :=
  catchFinally "Error in PUT /books/:id:" (putBookTry env id body)

/-- The `try` block of `app.delete('/books/:id')`. -/
def deleteBookTry (env : Env) (id : JsString) : Completion :=
  let id := parseIntStr id
  getConnection env.pool {} fun c =>
  query env.pool ⟨"DELETE FROM books WHERE id = ?", [.number id]⟩ c fun _ c =>
  respond ⟨204, .empty⟩ c

/-- Handler `app.delete('/books/:id')`. -/
def deleteBook (env : Env) (id : JsString) : Ctx :=
  catchFinally "Error in DELETE /books/:id:" (deleteBookTry env id)

/-- A request to one of the eight routes. -/
inductive Request
  | getBooks
  | getBook (id : JsString)
  | getAuthors
  | getAuthor (id : JsString)
  | postBooks (body : ReqBody)
  | patchBook (id : JsString) (body : ReqBody)
  | putBook (id : JsString) (body : ReqBody)
  | deleteBook (id : JsString)

/-- Routing: the handler registered for each route. -/
def handle (env : Env) : Request → Ctx
  | .getBooks => getBooks env
  | .getBook id => getBook env id
  | .getAuthors => getAuthors env
  | .getAuthor id => getAuthor env id
  | .postBooks body => postBooks env body
  | .patchBook id body => patchBook env id body
  | .putBook id body => putBook env id body
  | .deleteBook id => deleteBook env id

/-! ## Sample surroundings used to run the handlers on concrete requests -/

/-- Removes everything between `<` and `>`; the flag says whether a tag is open. -/
def dropTags : Bool → JsString → JsString
  | _, [] => []
  | false, '<' :: r => dropTags true r
  | false, c :: r => c :: dropTags false r
  | true, '>' :: r => dropTags false r
  | true, _ :: r => dropTags true r

/-- The error sanitize-html 2 throws on a value that is no string, number or nullish. -/
def notAString : JsError := "TypeError: this.buffers[0].slice is not a function"

/-- A sanitizer to run the sample requests with. It does what sanitize-html 2 does on the
values the samples pass: an absent value and `null` give the empty string, a boolean
throws, a number is printed, and a string without `<`, `>` and `&` is returned unchanged.
On other strings it only removes what stands between `<` and `>`, which is not what the
library does, and it throws on arrays and objects; no sample passes such a value. -/
def plainText : JsValue → Except JsError JsString
  | .undefined => .ok []
  | .null => .ok []
  | .bool _ => .error notAString
  | .number x => .ok x.toString
  | .string s => .ok (dropTags false s)
  | .array _ => .error notAString
  | .object _ => .error notAString

/-- A pool on which every call succeeds, with the given rows and insert id. -/
def okPool (rows : List Row) (insertId : Int) : Pool where
  getConnection := .ok ()
  query := fun _ => .ok ⟨rows, insertId⟩

/-- A pool whose `getConnection` throws `e`. -/
def downPool (e : JsError) : Pool where
  getConnection := .error e
  query := fun _ => .ok ⟨[], 0⟩

/-- A pool that hands out a connection on which every query throws `e`. -/
def brokenPool (e : JsError) : Pool where
  getConnection := .ok ()
  query := fun _ => .error e

/-- Sample surroundings: the sample sanitizer, the year 2024, a pool that succeeds. -/
def sampleEnv : Env := ⟨plainText, 2024, okPool [] 7⟩

/-- The body of the create scenario. -/
def duneBody : ReqBody :=
  ⟨.string "Dune".toList, .string "Frank Herbert".toList, .number 1965⟩

/-! ## The five ways a `try` block of a handler can end -/

/-- A `try` block of a handler ends in one of five ways: a throw by `sanitizeHtml` or
`parseInt` before any pool call, a validation `return` before any pool call, a throw by
`getConnection`, a throw by the one query, or a response after the one query. -/
inductive Shape (env : Env) : Completion → Prop
  | threwEarly (e : JsError) : Shape env (.threw e {})
  | rejected (r : Response) : r.status = 400 →
      Shape env (.normal { response := some r })
  | noConnection (e : JsError) : env.pool.getConnection = .error e →
      Shape env (.threw e { trace := [.getConnection] })
  | queryFailed (s : Statement) (e : JsError) : env.pool.getConnection = .ok () →
      env.pool.query s = .error e →
      Shape env (.threw e { conn := true, trace := [.getConnection, .query s] })
  | answered (s : Statement) (result : QueryResult) (r : Response) :
      env.pool.getConnection = .ok () → env.pool.query s = .ok result →
      Shape env (.normal { conn := true, trace := [.getConnection, .query s],
                           response := some r })

/-! ## Every `try` block ends in one of the five shapes -/

theorem shape_connect_query (env : Env) (s : Statement) (k : QueryResult → Ctx → Completion)
    (hk : ∀ result c, ∃ r, k result c = respond r c) :
    Shape env (getConnection env.pool {} (fun c => query env.pool s c k)) := by
  unfold getConnection
  cases hc : env.pool.getConnection with
  | error e => exact Shape.noConnection e hc
  | ok u =>
    cases u
    show Shape env (query env.pool s _ k)
    unfold query
    cases hq : env.pool.query s with
    | error e => exact Shape.queryFailed s e hc hq
    | ok result =>
      obtain ⟨r, hr⟩ := hk result { conn := true, trace := [.getConnection, .query s] }
      show Shape env (k result { conn := true, trace := [.getConnection, .query s] })
      rw [hr]
      exact Shape.answered s result r hc hq

theorem getBooksTry_shape (env : Env) : Shape env (getBooksTry env) :=
  shape_connect_query env _ _ (fun result _ => ⟨⟨200, .rows result.rows⟩, rfl⟩)

theorem getAuthorsTry_shape (env : Env) : Shape env (getAuthorsTry env) :=
  shape_connect_query env _ _ (fun result _ => ⟨⟨200, .rows result.rows⟩, rfl⟩)

theorem getBookTry_shape (env : Env) (id : JsString) : Shape env (getBookTry env id) := by
  refine shape_connect_query env _ _ (fun result c => ?_)
  cases result.rows with
  | nil => exact ⟨_, rfl⟩
  | cons r rest => exact ⟨_, rfl⟩

theorem getAuthorTry_shape (env : Env) (id : JsString) : Shape env (getAuthorTry env id) := by
  refine shape_connect_query env _ _ (fun result c => ?_)
  cases result.rows with
  | nil => exact ⟨_, rfl⟩
  | cons r rest => exact ⟨_, rfl⟩

theorem deleteBookTry_shape (env : Env) (id : JsString) : Shape env (deleteBookTry env id) :=
  shape_connect_query env _ _ (fun _ _ => ⟨⟨204, .empty⟩, rfl⟩)

theorem shape_sanitizeHtml (env : Env) (v : JsValue) (k : JsString → Completion)
    (hk : ∀ s, Shape env (k s)) : Shape env (sanitizeHtml env v {} k) := by
  unfold sanitizeHtml
  cases env.sanitizeHtml v with
  | error e => exact Shape.threwEarly e
  | ok s => exact hk s

theorem shape_evalParseInt (env : Env) (v : JsValue) (k : JsNum → Completion)
    (hk : ∀ n, Shape env (k n)) : Shape env (evalParseInt v {} k) := by
  unfold evalParseInt
  cases parseInt v with
  | error e => exact Shape.threwEarly e
  | ok n => exact hk n

theorem postBooksValidate_shape (env : Env) (title author : JsString) (year : JsNum) :
    Shape env (postBooksValidate env title author year) := by
  unfold postBooksValidate
  split
  · exact Shape.rejected _ rfl
  · split
    · exact Shape.rejected _ rfl
    · exact shape_connect_query env _ _ (fun result _ => ⟨_, rfl⟩)

theorem postBooksTry_shape (env : Env) (body : ReqBody) : Shape env (postBooksTry env body) :=
  shape_sanitizeHtml env _ _ fun title =>
  shape_sanitizeHtml env _ _ fun author =>
  shape_evalParseInt env _ _ fun year =>
  postBooksValidate_shape env title author year

theorem putBookValidate_shape (env : Env) (id : JsNum) (title author : JsString)
    (year : JsNum) : Shape env (putBookValidate env id title author year) := by
  unfold putBookValidate
  split
  · exact Shape.rejected _ rfl
  · split
    · exact Shape.rejected _ rfl
    · exact shape_connect_query env _ _ (fun _ _ => ⟨_, rfl⟩)

theorem putBookTry_shape (env : Env) (id : JsString) (body : ReqBody) :
    Shape env (putBookTry env id body) :=
  shape_sanitizeHtml env _ _ fun title =>
  shape_sanitizeHtml env _ _ fun author =>
  shape_evalParseInt env _ _ fun year =>
  putBookValidate_shape env (parseIntStr id) title author year

theorem patchBookSend_shape (env : Env) (id : JsNum) (updates : Updates) :
    Shape env (patchBookSend env id updates) := by
  unfold patchBookSend
  split
  · exact Shape.rejected _ rfl
  · exact shape_connect_query env _ _ (fun _ _ => ⟨_, rfl⟩)

theorem patchBookYear_shape (env : Env) (id : JsNum) (body : ReqBody) (updates : Updates) :
    Shape env (patchBookYear env id body updates) := by
  unfold patchBookYear
  split
  · refine shape_evalParseInt env _ _ fun year => ?_
    split
    · exact Shape.rejected _ rfl
    · exact patchBookSend_shape env _ _
  · exact patchBookSend_shape env _ _

theorem patchBookAuthor_shape (env : Env) (id : JsNum) (body : ReqBody) (updates : Updates) :
    Shape env (patchBookAuthor env id body updates) := by
  unfold patchBookAuthor
  split
  · exact shape_sanitizeHtml env _ _ fun author => patchBookYear_shape env _ _ _
  · exact patchBookYear_shape env _ _ _

theorem patchBookTry_shape (env : Env) (id : JsString) (body : ReqBody) :
    Shape env (patchBookTry env id body) := by
  unfold patchBookTry
  simp only []
  split
  · exact shape_sanitizeHtml env _ _ fun title => patchBookAuthor_shape env _ _ _
  · exact patchBookAuthor_shape env _ _ _

/-- What `catchFinally` makes of each shape, read off the final state. -/
theorem catchFinally_shape (env : Env) (label : String) (t : Completion) (h : Shape env t) :
    (∃ e, catchFinally label t = { response := some internalServerError,
                                   log := [(label, e)] }) ∨
    (∃ r, r.status = 400 ∧ catchFinally label t = { response := some r }) ∨
    (∃ e, env.pool.getConnection = .error e ∧
      catchFinally label t = { trace := [.getConnection], response := some internalServerError,
                               log := [(label, e)] }) ∨
    (∃ s e, env.pool.getConnection = .ok () ∧ env.pool.query s = .error e ∧
      catchFinally label t = { conn := true, trace := [.getConnection, .query s, .release],
                               response := some internalServerError, log := [(label, e)] }) ∨
    (∃ s result r, env.pool.getConnection = .ok () ∧ env.pool.query s = .ok result ∧
      catchFinally label t = { conn := true, trace := [.getConnection, .query s, .release],
                               response := some r }) := by
  cases h with
  | threwEarly e => exact Or.inl ⟨e, rfl⟩
  | rejected r hr => exact Or.inr (Or.inl ⟨r, hr, rfl⟩)
  | noConnection e he => exact Or.inr (Or.inr (Or.inl ⟨e, he, rfl⟩))
  | queryFailed s e hc hq => exact Or.inr (Or.inr (Or.inr (Or.inl ⟨s, e, hc, hq, rfl⟩)))
  | answered s result r hc hq =>
    exact Or.inr (Or.inr (Or.inr (Or.inr ⟨s, result, r, hc, hq, rfl⟩)))

/-- The final state of every handler is one of the five outcomes of `catchFinally_shape`. -/
theorem handle_shape (env : Env) (req : Request) :
    ∃ label t, Shape env t ∧ handle env req = catchFinally label t := by
  cases req with
  | getBooks => exact ⟨_, _, getBooksTry_shape env, rfl⟩
  | getBook id => exact ⟨_, _, getBookTry_shape env id, rfl⟩
  | getAuthors => exact ⟨_, _, getAuthorsTry_shape env, rfl⟩
  | getAuthor id => exact ⟨_, _, getAuthorTry_shape env id, rfl⟩
  | postBooks body => exact ⟨_, _, postBooksTry_shape env body, rfl⟩
  | patchBook id body => exact ⟨_, _, patchBookTry_shape env id body, rfl⟩
  | putBook id body => exact ⟨_, _, putBookTry_shape env id body, rfl⟩
  | deleteBook id => exact ⟨_, _, deleteBookTry_shape env id, rfl⟩

/-- Claim C7. For each of the eight handlers and every execution path: when
`pool.getConnection()` was called and succeeded, the trace is `getConnection`, then
queries only, then exactly one `release` at the very end; when `getConnection` was never
called, `release` is never invoked; when it was called and failed, `release` is never
invoked and the response is 500 Internal server error. -/
theorem release_exactly_once (env : Env) (req : Request) :
    (Event.getConnection ∈ (handle env req).trace → env.pool.getConnection = .ok () →
      ∃ qs : List Event, (handle env req).trace = Event.getConnection :: (qs ++ [Event.release]) ∧
        (∀ ev ∈ qs, ∃ s, ev = Event.query s) ∧
        (handle env req).trace.count Event.release = 1) ∧
    (Event.getConnection ∉ (handle env req).trace → Event.release ∉ (handle env req).trace) ∧
    (Event.getConnection ∈ (handle env req).trace → ∀ e, env.pool.getConnection = .error e →
      Event.release ∉ (handle env req).trace ∧
      (handle env req).response = some ⟨500, .error "Internal server error"⟩) := by
  obtain ⟨label, t, ht, heq⟩ := handle_shape env req
  rw [heq]
  rcases catchFinally_shape env label t ht with
    ⟨e, h⟩ | ⟨r, _, h⟩ | ⟨e, he, h⟩ | ⟨s, e, hc, _, h⟩ | ⟨s, result, r, hc, _, h⟩
  · rw [h]; simp
  · rw [h]; simp
  · rw [h]
    refine ⟨fun _ hok => ?_, fun hn => ?_, fun _ e2 _ => ?_⟩
    · rw [he] at hok; cases hok
    · simp at hn
    · exact ⟨by simp, rfl⟩
  · rw [h]
    refine ⟨fun _ _ => ⟨[.query s], rfl, ?_, ?_⟩, fun hn => ?_, fun _ e2 he2 => ?_⟩
    · intro ev hev; simp at hev; exact ⟨s, hev⟩
    · simp [List.count_cons]
    · simp at hn
    · rw [hc] at he2; cases he2
  · rw [h]
    refine ⟨fun _ _ => ⟨[.query s], rfl, ?_, ?_⟩, fun hn => ?_, fun _ e2 he2 => ?_⟩
    · intro ev hev; simp at hev; exact ⟨s, hev⟩
    · simp [List.count_cons]
    · simp at hn
    · rw [hc] at he2; cases he2

/-- Claim C9. For each of the eight handlers: whenever `pool.getConnection()` was called and
threw, or a query was issued and `conn.query` threw on it, the response is status 500 with
body exactly `Internal server error`, whatever the error value is. -/
theorem error_response_uniform (env : Env) (req : Request) :
    (∀ e, Event.getConnection ∈ (handle env req).trace → env.pool.getConnection = .error e →
      (handle env req).response = some ⟨500, .error "Internal server error"⟩) ∧
    (∀ s e, Event.query s ∈ (handle env req).trace → env.pool.query s = .error e →
      (handle env req).response = some ⟨500, .error "Internal server error"⟩) := by
  obtain ⟨label, t, ht, heq⟩ := handle_shape env req
  rw [heq]
  rcases catchFinally_shape env label t ht with
    ⟨e, h⟩ | ⟨r, _, h⟩ | ⟨e, he, h⟩ | ⟨s, e, hc, hq, h⟩ | ⟨s, result, r, hc, hq, h⟩
  · rw [h]; simp
  · rw [h]; simp
  · rw [h]; simp [internalServerError]
  · rw [h]; simp [internalServerError]
  · rw [h]
    refine ⟨fun e _ he => ?_, fun s2 e2 hmem he2 => ?_⟩
    · rw [hc] at he; cases he
    · simp at hmem
      rw [hmem, hq] at he2; cases he2

/-! ## Facts about `parseInt` and truthiness -/

theorem parseIntStr_nil : parseIntStr [] = .nan := by decide

/-- A value that `parseInt` reads as a non-zero integer is truthy. -/
theorem truthy_of_parseInt_ne_zero (v : JsValue) (y : Int) (h : parseInt v = .ok (.int y))
    (hy : y ≠ 0) : truthy v = true := by
  cases v with
  | undefined =>
    have h0 : parseInt .undefined = .ok .nan := rfl
    rw [h0] at h; cases h
  | null =>
    have h0 : parseInt .null = .ok .nan := rfl
    rw [h0] at h; cases h
  | bool b =>
    have h0 : parseInt (.bool b) = .ok .nan := by cases b <;> rfl
    rw [h0] at h; cases h
  | number x =>
    cases x with
    | zero negative =>
      have h0 : parseInt (.number (.zero negative)) = .ok (.int 0) := rfl
      rw [h0] at h
      cases h
      exact absurd rfl hy
    | infinity negative => rfl
    | finite negative digits n wf => rfl
  | string s =>
    cases s with
    | nil =>
      have h0 : parseInt (.string []) = .ok .nan := rfl
      rw [h0] at h; cases h
    | cons c r => rfl
  | array items => rfl
  | object fields => rfl


/-- The number `10^21` prints in exponent form, so `parseInt` reads the year 1 from it and
`POST /books` inserts the year 1. -/
theorem postBooks_year_1e21_inserts_one :
    ToString (.number (.finite false "1".toList 22 rfl)) = .ok "1e+21".toList ∧
    (postBooks sampleEnv ⟨.string "Dune".toList, .string "Frank Herbert".toList,
        .number (.finite false "1".toList 22 rfl)⟩).trace =
      [.getConnection,
       .query ⟨"INSERT INTO books (title, author, published_year) VALUES (?, ?, ?)",
         [.text "Dune".toList, .text "Frank Herbert".toList, .number (.int 1)]⟩,
       .release] := by
  refine ⟨rfl, ?_⟩
  decide

/-- An id above `2^53` is bound as the double nearest to it. -/
theorem parseIntStr_rounds_to_double :
    parseIntStr "9007199254740993".toList = .int 9007199254740992 := by
  decide!

/-! ## GET by id -/

/-- Claim C8. For every id and every row list the SELECT returns (connection acquired, query
resolved): `GET /books/:id` answers 404 `Book not found` if and only if the row list is
empty, and otherwise 200 with the first row; `GET /authors/:id` does the same with
404 `Author not found`. -/
theorem get_by_id_not_found_iff_empty (env : Env) (id : JsString) (bookRows authorRows : List Row)
    (bookId authorId : Int)
    (hconn : env.pool.getConnection = .ok ())
    (hbooks : env.pool.query (selectBook id) = .ok ⟨bookRows, bookId⟩)
    (hauthors : env.pool.query (selectAuthor id) = .ok ⟨authorRows, authorId⟩) :
    (((getBook env id).response = some ⟨404, .error "Book not found"⟩ ↔ bookRows = []) ∧
      (∀ r rest, bookRows = r :: rest → (getBook env id).response = some ⟨200, .row r⟩)) ∧
    (((getAuthor env id).response = some ⟨404, .error "Author not found"⟩ ↔ authorRows = []) ∧
      (∀ r rest, authorRows = r :: rest → (getAuthor env id).response = some ⟨200, .row r⟩)) := by
  constructor
  · cases bookRows with
    | nil =>
      simp [getBook, getBookTry, getConnection, query, hconn, hbooks, respond, catchFinally,
        finallyRelease]
    | cons r rest =>
      simp [getBook, getBookTry, getConnection, query, hconn, hbooks, respond, catchFinally,
        finallyRelease]
  · cases authorRows with
    | nil =>
      simp [getAuthor, getAuthorTry, getConnection, query, hconn, hauthors, respond,
        catchFinally, finallyRelease]
    | cons r rest =>
      simp [getAuthor, getAuthorTry, getConnection, query, hconn, hauthors, respond,
        catchFinally, finallyRelease]

/-- Witness of C8: book 999999 is absent from an empty table. -/
theorem get_by_id_not_found_iff_empty_witness :
    (getBook sampleEnv "999999".toList).response = some ⟨404, .error "Book not found"⟩ ∧
    (getAuthor sampleEnv "999999".toList).response = some ⟨404, .error "Author not found"⟩ :=
  ⟨(get_by_id_not_found_iff_empty sampleEnv "999999".toList [] [] 7 7 rfl rfl rfl).1.1.2 rfl,
   (get_by_id_not_found_iff_empty sampleEnv "999999".toList [] [] 7 7 rfl rfl rfl).2.1.2 rfl⟩

/-! ## PATCH: year out of range -/

/-- Throws by `sanitizeHtml` and `parseInt` leave the pool untouched: a `try` block that
ends by a throw with an empty state gives 500 and an empty trace. -/
theorem catchFinally_threw_early (label : String) (e : JsError) :
    catchFinally label (.threw e {}) =
      { response := some ⟨500, .error "Internal server error"⟩, log := [(label, e)] } := rfl

/-- What `patchBookYear` does on a year that parses to an integer out of range. -/
theorem patchBookYear_out_of_range (env : Env) (id : JsNum) (body : ReqBody)
    (updates : Updates) (y : Int) (hparse : parseInt body.published_year = .ok (.int y))
    (hrange : y < 0 ∨ y > (env.currentYear : Int)) :
    patchBookYear env id body updates =
      .normal { response := some ⟨400, .error "Invalid published year"⟩ } := by
  have hy : y ≠ 0 := by
    have := Int.ofNat_nonneg env.currentYear
    omega
  have ht := truthy_of_parseInt_ne_zero _ y hparse hy
  have hcmp : ((JsNum.int y).lt 0 || (JsNum.int y).gt env.currentYear) = true := by
    rcases hrange with h | h <;> simp [JsNum.lt, JsNum.gt, h]
  simp [patchBookYear, evalParseInt, ht, hparse, hcmp, respond]

/-- Claim C4, as amended. For every `PATCH /books/:id` body whose `published_year` parses
to an integer `y` with `y < 0` or `y > currentYear`, whatever title and author it
carries: no connection is acquired and no statement is issued; and when `sanitizeHtml`
returns on the title and on the author that are truthy, the response is 400
`Invalid published year`. -/
theorem patchBook_rejects_year_out_of_range (env : Env) (id : JsString) (body : ReqBody)
    (y : Int) (hparse : parseInt body.published_year = .ok (.int y))
    (hrange : y < 0 ∨ y > (env.currentYear : Int)) :
    ((patchBook env id body).trace = [] ∧ (patchBook env id body).conn = false) ∧
    ((truthy body.title = true → ∃ title, env.sanitizeHtml body.title = .ok title) →
      (truthy body.author = true → ∃ author, env.sanitizeHtml body.author = .ok author) →
      patchBook env id body =
        { response := some ⟨400, .error "Invalid published year"⟩ }) := by
  have hyear := fun updates =>
    patchBookYear_out_of_range env (parseIntStr id) body updates y hparse hrange
  have hauthor : ∀ updates,
      (patchBookAuthor env (parseIntStr id) body updates =
        .normal { response := some ⟨400, .error "Invalid published year"⟩ }) ∨
      (truthy body.author = true ∧ ∃ e, env.sanitizeHtml body.author = .error e ∧
        patchBookAuthor env (parseIntStr id) body updates = .threw e {}) := by
    intro updates
    unfold patchBookAuthor sanitizeHtml
    cases ha : truthy body.author with
    | false => simp [hyear]
    | true =>
      cases hs : env.sanitizeHtml body.author with
      | error e => simp
      | ok author => simp [hyear]
  have htry :
      (patchBookTry env id body =
        .normal { response := some ⟨400, .error "Invalid published year"⟩ }) ∨
      (∃ e, patchBookTry env id body = .threw e {} ∧
        ((truthy body.title = true ∧ env.sanitizeHtml body.title = .error e) ∨
         (truthy body.author = true ∧ env.sanitizeHtml body.author = .error e))) := by
    unfold patchBookTry sanitizeHtml
    cases ht : truthy body.title with
    | false =>
      simp only [Bool.false_eq_true, if_false]
      rcases hauthor {} with h | ⟨h1, e, h2, h3⟩
      · exact Or.inl h
      · exact Or.inr ⟨e, h3, Or.inr ⟨h1, h2⟩⟩
    | true =>
      cases hs : env.sanitizeHtml body.title with
      | error e => exact Or.inr ⟨e, by simp, Or.inl ⟨rfl, rfl⟩⟩
      | ok title =>
        simp only [if_true]
        rcases hauthor { title := some title } with h | ⟨h1, e, h2, h3⟩
        · exact Or.inl h
        · exact Or.inr ⟨e, h3, Or.inr ⟨h1, h2⟩⟩
  rcases htry with h | ⟨e, h, hthrow⟩
  · have hout : patchBook env id body =
        { response := some ⟨400, .error "Invalid published year"⟩ } := by
      rw [patchBook, h]; rfl
    rw [hout]
    exact ⟨⟨rfl, rfl⟩, fun _ _ => rfl⟩
  · have hout : patchBook env id body =
        { response := some ⟨500, .error "Internal server error"⟩,
          log := [("Error in PATCH /books/:id:", e)] } := by
      rw [patchBook, h]; rfl
    rw [hout]
    refine ⟨⟨rfl, rfl⟩, fun h1 h2 => ?_⟩
    rcases hthrow with ⟨ht, hs⟩ | ⟨ht, hs⟩
    · obtain ⟨title, htitle⟩ := h1 ht
      rw [hs] at htitle; cases htitle
    · obtain ⟨author, hauth⟩ := h2 ht
      rw [hs] at hauth; cases hauth

/-- Witness of C4: the body with `published_year` 3000 in the year 2024. -/
theorem patchBook_rejects_year_out_of_range_witness :
    parseInt (JsValue.number 3000) = .ok (.int 3000) ∧
    patchBook sampleEnv "1".toList { published_year := .number 3000 } =
      { response := some ⟨400, .error "Invalid published year"⟩ } :=
  ⟨rfl,
   (patchBook_rejects_year_out_of_range sampleEnv "1".toList { published_year := .number 3000 }
     3000 rfl (Or.inr (by decide))).2
     (fun h => absurd h (by decide)) (fun h => absurd h (by decide))⟩

/-- Counterexample to C4 as stated: at `PATCH /books/1` with body `title: true`,
`published_year: 3000` in the year 2024 the year parses to 3000, above the current year,
yet the response is 500 `Internal server error`, not 400: `sanitizeHtml(true)` throws
before the year is looked at. -/
theorem patchBook_boolean_title_not_400 :
    parseInt (JsValue.number 3000) = .ok (.int 3000) ∧
    (3000 : Int) > (sampleEnv.currentYear : Int) ∧
    (patchBook sampleEnv "1".toList { title := .bool true, published_year := .number 3000 }).response =
      some ⟨500, .error "Internal server error"⟩ ∧
    (patchBook sampleEnv "1".toList { title := .bool true, published_year := .number 3000 }).response ≠
      some ⟨400, .error "Invalid published year"⟩ := by
  refine ⟨rfl, by decide, rfl, ?_⟩
  intro h
  have h2 : (some ⟨500, .error "Internal server error"⟩ : Option Response) =
      some ⟨400, .error "Invalid published year"⟩ := h
  have h3 := congrArg (fun r => r.map Response.status) h2
  revert h3
  decide

/-! ## POST /books -/

/-- When `sanitizeHtml` returns on title and author and `parseInt` returns, the `try`
block of `POST /books` is its validation part on the three results. -/
theorem postBooksTry_of_parsed (env : Env) (body : ReqBody) (title author : JsString)
    (year : JsNum) (htitle : env.sanitizeHtml body.title = .ok title)
    (hauthor : env.sanitizeHtml body.author = .ok author)
    (hyear : parseInt body.published_year = .ok year) :
    postBooksTry env body = postBooksValidate env title author year := by
  simp [postBooksTry, sanitizeHtml, evalParseInt, htitle, hauthor, hyear]

/-- When `sanitizeHtml` or `parseInt` throws, `POST /books` answers 500 and makes no pool
call. -/
theorem postBooks_throw (env : Env) (body : ReqBody)
    (h : (∃ e, env.sanitizeHtml body.title = .error e) ∨
      (∃ e, env.sanitizeHtml body.author = .error e) ∨
      (∃ e, parseInt body.published_year = .error e)) :
    ∃ e, postBooks env body =
      { response := some ⟨500, .error "Internal server error"⟩,
        log := [("Error in POST /books:", e)] } := by
  unfold postBooks postBooksTry sanitizeHtml evalParseInt
  cases ht : env.sanitizeHtml body.title with
  | error e => exact ⟨e, rfl⟩
  | ok title =>
    cases ha : env.sanitizeHtml body.author with
    | error e => exact ⟨e, rfl⟩
    | ok author =>
      cases hy : parseInt body.published_year with
      | error e => exact ⟨e, rfl⟩
      | ok year =>
        rcases h with ⟨e, h⟩ | ⟨e, h⟩ | ⟨e, h⟩
        · rw [ht] at h; cases h
        · rw [ha] at h; cases h
        · rw [hy] at h; cases h

theorem postBooksValidate_missing (env : Env) (title author : JsString) (year : JsNum)
    (h : title = [] ∨ author = [] ∨ year = .nan) :
    postBooksValidate env title author year =
      .normal
        { response := some ⟨400, .error "Title, author, and published year are required"⟩ } := by
  have hc : (title.isEmpty || author.isEmpty || year.isNaN) = true := by
    rcases h with h | h | h <;> simp [h, JsNum.isNaN]
  simp [postBooksValidate, hc, respond]

theorem postBooksValidate_out_of_range (env : Env) (title author : JsString) (year : JsNum)
    (ht : title ≠ []) (ha : author ≠ [])
    (hr : (∃ y : Int, year = .int y ∧ (y < 0 ∨ y > (env.currentYear : Int))) ∨
      (∃ negative, year = .infinity negative)) :
    postBooksValidate env title author year =
      .normal { response := some ⟨400, .error "Invalid published year"⟩ } := by
  have hn : year.isNaN = false := by
    rcases hr with ⟨y, rfl, _⟩ | ⟨b, rfl⟩ <;> rfl
  have hc : (year.lt 0 || year.gt env.currentYear) = true := by
    rcases hr with ⟨y, rfl, h | h⟩ | ⟨b, rfl⟩
    · simp [JsNum.lt, h]
    · simp [JsNum.gt, h]
    · cases b <;> simp [JsNum.lt, JsNum.gt]
  simp [postBooksValidate, hn, hc, ht, ha, respond]

theorem postBooksValidate_accepted (env : Env) (title author : JsString) (y : Int)
    (ht : title ≠ []) (ha : author ≠ []) (h0 : 0 ≤ y) (h1 : y ≤ (env.currentYear : Int)) :
    postBooksValidate env title author (.int y) = getConnection env.pool {} (fun c =>
      query env.pool
        ⟨"INSERT INTO books (title, author, published_year) VALUES (?, ?, ?)",
          [.text title, .text author, .number (.int y)]⟩ c
        (fun result c => respond ⟨201, .created "Book created successfully" result.insertId⟩ c)) := by
  have hc : ((JsNum.int y).lt 0 || (JsNum.int y).gt env.currentYear) = false := by
    simp [JsNum.lt, JsNum.gt, h0, h1]
  simp [postBooksValidate, hc, ht, ha, JsNum.isNaN, insertBook]

/-- Claim C2, as amended. For every body of `POST /books` on which `sanitizeHtml` returns
(`title`, `author`) and `parseInt` returns (`year`), with `getConnection` and the INSERT
succeeding (insert id `N`): the response is 400 `Title, author, and published year are
required` exactly when the sanitized title is empty, the sanitized author is empty or
the year is `NaN`; otherwise it is 400 `Invalid published year` exactly when the parsed
year is below 0 or above the current year (or infinite); otherwise exactly one statement
is issued, `INSERT INTO books (title, author, published_year) VALUES (?, ?, ?)` with
parameters sanitized title, sanitized author, parsed year, and the response is 201
`Book created successfully` with id `N`. On both 400 outcomes no connection is acquired
and no statement is issued. -/
theorem postBooks_contract (env : Env) (body : ReqBody) (title author : JsString)
    (year : JsNum) (N : Int) (rows : List Row)
    (htitle : env.sanitizeHtml body.title = .ok title)
    (hauthor : env.sanitizeHtml body.author = .ok author)
    (hyear : parseInt body.published_year = .ok year)
    (hconn : env.pool.getConnection = .ok ())
    (hquery : env.pool.query
      ⟨"INSERT INTO books (title, author, published_year) VALUES (?, ?, ?)",
        [.text title, .text author, .number year]⟩ = .ok ⟨rows, N⟩) :
    ((postBooks env body).response =
        some ⟨400, .error "Title, author, and published year are required"⟩ ↔
      (title = [] ∨ author = [] ∨ year = .nan)) ∧
    (¬ (title = [] ∨ author = [] ∨ year = .nan) →
      ((postBooks env body).response = some ⟨400, .error "Invalid published year"⟩ ↔
        ((∃ y : Int, year = .int y ∧ (y < 0 ∨ y > (env.currentYear : Int))) ∨
          (∃ negative, year = .infinity negative)))) ∧
    (¬ (title = [] ∨ author = [] ∨ year = .nan) →
      ¬ ((∃ y : Int, year = .int y ∧ (y < 0 ∨ y > (env.currentYear : Int))) ∨
          (∃ negative, year = .infinity negative)) →
      (postBooks env body).trace =
        [.getConnection,
         .query ⟨"INSERT INTO books (title, author, published_year) VALUES (?, ?, ?)",
           [.text title, .text author, .number year]⟩,
         .release] ∧
      (postBooks env body).response =
        some ⟨201, .created "Book created successfully" N⟩) ∧
    (∀ r : Response, (postBooks env body).response = some r → r.status = 400 →
      (postBooks env body).trace = [] ∧ (postBooks env body).conn = false) := by
  have htry := postBooksTry_of_parsed env body title author year htitle hauthor hyear
  by_cases hm : title = [] ∨ author = [] ∨ year = .nan
  · have hout : postBooks env body =
        { response :=
            some ⟨400, .error "Title, author, and published year are required"⟩ } := by
      rw [postBooks, htry, postBooksValidate_missing env title author year hm]; rfl
    rw [hout]
    simp [hm]
  · have ht : title ≠ [] := fun h => hm (Or.inl h)
    have ha : author ≠ [] := fun h => hm (Or.inr (Or.inl h))
    by_cases hr : (∃ y : Int, year = .int y ∧ (y < 0 ∨ y > (env.currentYear : Int))) ∨
        (∃ negative, year = .infinity negative)
    · have hout : postBooks env body =
          { response := some ⟨400, .error "Invalid published year"⟩ } := by
        rw [postBooks, htry, postBooksValidate_out_of_range env title author year ht ha hr]
        rfl
      rw [hout]
      refine ⟨⟨fun h => ?_, fun h => absurd h hm⟩, fun _ => ⟨fun _ => hr, fun _ => rfl⟩,
        fun _ h => absurd hr h, fun _ _ _ => ⟨rfl, rfl⟩⟩
      have h3 := congrArg (fun r => r.map Response.body) h
      simp at h3
    · cases year with
      | nan => exact absurd (Or.inr (Or.inr rfl)) hm
      | infinity negative => exact absurd (Or.inr ⟨negative, rfl⟩) hr
      | int y =>
        have h0 : 0 ≤ y := by
          by_contra hlt
          exact hr (Or.inl ⟨y, rfl, Or.inl (by omega)⟩)
        have h1 : y ≤ (env.currentYear : Int) := by
          by_contra hgt
          exact hr (Or.inl ⟨y, rfl, Or.inr (by omega)⟩)
        have hout : postBooks env body =
            { conn := true,
              trace := [.getConnection,
                .query ⟨"INSERT INTO books (title, author, published_year) VALUES (?, ?, ?)",
                  [.text title, .text author, .number (.int y)]⟩, .release],
              response := some ⟨201, .created "Book created successfully" N⟩ } := by
          rw [postBooks, htry, postBooksValidate_accepted env title author y ht ha h0 h1]
          simp [getConnection, query, hconn, hquery, respond, catchFinally, finallyRelease]
        rw [hout]
        refine ⟨⟨fun h => ?_, fun h => absurd h hm⟩, fun _ => ⟨fun h => ?_, fun h => absurd h hr⟩,
          fun _ _ => ⟨rfl, rfl⟩, fun r hresp hs => ?_⟩
        · have h3 := congrArg (fun r => r.map Response.status) h
          simp at h3
        · have h3 := congrArg (fun r => r.map Response.status) h
          simp at h3
        · have h3 : (some ⟨201, .created "Book created successfully" N⟩ : Option Response) =
              some r := hresp
          cases h3
          have h4 : (201 : Nat) = 400 := hs
          exact absurd h4 (by decide)

/-- Witness of C2: the create scenario answers 201 with the insert id of the pool. -/
theorem postBooks_contract_witness :
    (postBooks sampleEnv duneBody).trace =
      [.getConnection,
       .query ⟨"INSERT INTO books (title, author, published_year) VALUES (?, ?, ?)",
         [.text "Dune".toList, .text "Frank Herbert".toList, .number (.int 1965)]⟩,
       .release] ∧
    (postBooks sampleEnv duneBody).response =
      some ⟨201, .created "Book created successfully" 7⟩ :=
  (postBooks_contract sampleEnv duneBody "Dune".toList "Frank Herbert".toList (.int 1965) 7 []
      rfl rfl rfl rfl rfl).2.2.1
    (by decide)
    (by
      rintro (⟨y, hy, hr⟩ | ⟨negative, hn⟩)
      · cases hy
        revert hr
        decide
      · cases hn)

/-- Counterexample to C2 as stated: at `POST /books` with body `title: true`,
`author: "Frank Herbert"`, `published_year: 1965` and the database succeeding, the
response is 500 `Internal server error` and no INSERT is issued: it is neither of the two
400 responses nor the 201 response, because `sanitizeHtml(true)` throws. -/
theorem postBooks_boolean_title_500 :
    (postBooks sampleEnv ⟨.bool true, .string "Frank Herbert".toList, .number 1965⟩).response =
      some ⟨500, .error "Internal server error"⟩ ∧
    (postBooks sampleEnv ⟨.bool true, .string "Frank Herbert".toList, .number 1965⟩).trace = [] ∧
    ¬ (∃ r : Response,
        (postBooks sampleEnv ⟨.bool true, .string "Frank Herbert".toList, .number 1965⟩).response =
          some r ∧ (r.status = 400 ∨ r.status = 201)) := by
  refine ⟨rfl, rfl, ?_⟩
  rintro ⟨r, hr, hs⟩
  have h2 : (some ⟨500, .error "Internal server error"⟩ : Option Response) = some r := hr
  cases h2
  revert hs
  decide

/-! ## PUT /books/:id -/

/-- When `sanitizeHtml` returns on title and author and `parseInt` returns, the `try`
block of `PUT /books/:id` is its validation part on the three results. -/
theorem putBookTry_of_parsed (env : Env) (id : JsString) (body : ReqBody)
    (title author : JsString) (year : JsNum)
    (htitle : env.sanitizeHtml body.title = .ok title)
    (hauthor : env.sanitizeHtml body.author = .ok author)
    (hyear : parseInt body.published_year = .ok year) :
    putBookTry env id body = putBookValidate env (parseIntStr id) title author year := by
  simp [putBookTry, sanitizeHtml, evalParseInt, htitle, hauthor, hyear]

/-- Whatever `sanitizeHtml` and `parseInt` do, `PUT /books/:id` either runs its validation
part on their results or answers 500 without a pool call. -/
theorem putBook_cases (env : Env) (id : JsString) (body : ReqBody) :
    (∃ title author year, env.sanitizeHtml body.title = .ok title ∧
      env.sanitizeHtml body.author = .ok author ∧ parseInt body.published_year = .ok year ∧
      putBookTry env id body = putBookValidate env (parseIntStr id) title author year) ∨
    (∃ e, ((env.sanitizeHtml body.title = .error e) ∨
        (env.sanitizeHtml body.author = .error e) ∨
        (parseInt body.published_year = .error e)) ∧
      putBook env id body =
        { response := some ⟨500, .error "Internal server error"⟩,
          log := [("Error in PUT /books/:id:", e)] }) := by
  cases ht : env.sanitizeHtml body.title with
  | error e =>
    refine Or.inr ⟨e, Or.inl rfl, ?_⟩
    simp [putBook, putBookTry, sanitizeHtml, ht]; rfl
  | ok title =>
    cases ha : env.sanitizeHtml body.author with
    | error e =>
      refine Or.inr ⟨e, Or.inr (Or.inl rfl), ?_⟩
      simp [putBook, putBookTry, sanitizeHtml, ht, ha]; rfl
    | ok author =>
      cases hy : parseInt body.published_year with
      | error e =>
        refine Or.inr ⟨e, Or.inr (Or.inr rfl), ?_⟩
        simp [putBook, putBookTry, sanitizeHtml, evalParseInt, ht, ha, hy]; rfl
      | ok year =>
        exact Or.inl ⟨title, author, year, rfl, rfl, rfl,
          putBookTry_of_parsed env id body title author year ht ha hy⟩

theorem putBookValidate_missing (env : Env) (id : JsNum) (title author : JsString)
    (year : JsNum) (h : title = [] ∨ author = [] ∨ year.falsy = true) :
    putBookValidate env id title author year =
      .normal
        { response := some ⟨400, .error "Title, author, and published year are required"⟩ } := by
  have hc : (title.isEmpty || author.isEmpty || year.falsy) = true := by
    rcases h with h | h | h <;> simp [h]
  simp [putBookValidate, hc, respond]

theorem putBookValidate_out_of_range (env : Env) (id : JsNum) (title author : JsString)
    (year : JsNum) (ht : title ≠ []) (ha : author ≠ [])
    (hr : (∃ y : Int, year = .int y ∧ (y < 0 ∨ y > (env.currentYear : Int))) ∨
      (∃ negative, year = .infinity negative)) :
    putBookValidate env id title author year =
      .normal { response := some ⟨400, .error "Invalid published year"⟩ } := by
  have hn : year.falsy = false := by
    rcases hr with ⟨y, rfl, h⟩ | ⟨b, rfl⟩
    · have := Int.ofNat_nonneg env.currentYear
      have hz : y ≠ 0 := by omega
      simp [JsNum.falsy, hz]
    · rfl
  have hc : (year.lt 0 || year.gt env.currentYear) = true := by
    rcases hr with ⟨y, rfl, h | h⟩ | ⟨b, rfl⟩
    · simp [JsNum.lt, h]
    · simp [JsNum.gt, h]
    · cases b <;> simp [JsNum.lt, JsNum.gt]
  simp [putBookValidate, hn, hc, ht, ha, respond]

theorem putBookValidate_accepted (env : Env) (id : JsNum) (title author : JsString) (y : Int)
    (ht : title ≠ []) (ha : author ≠ []) (h0 : 0 < y) (h1 : y ≤ (env.currentYear : Int)) :
    putBookValidate env id title author (.int y) = getConnection env.pool {} (fun c =>
      query env.pool
        ⟨"UPDATE books SET title = ?, author = ?, published_year = ? WHERE id = ?",
          [.text title, .text author, .number (.int y), .number id]⟩ c
        (fun _ c => respond ⟨200, .message "Book replaced successfully"⟩ c)) := by
  have hc : ((JsNum.int y).lt 0 || (JsNum.int y).gt env.currentYear) = false := by
    simp [JsNum.lt, JsNum.gt, h1]
    omega
  have hz : y ≠ 0 := by omega
  simp [putBookValidate, hc, ht, ha, hz, JsNum.falsy, replaceBook]

/-- Claim C5, as amended. For every `PUT /books/:id` body in which title, author or
`published_year` is missing (with a sanitizer that gives the empty string for an absent
value), or is empty after sanitization, or does not parse, or in which `published_year`
parses to an integer outside `[0, currentYear]` (or to an infinity): no connection is
acquired and no statement is issued; and when `sanitizeHtml` returns on title and author
and `parseInt` returns, the response has status 400. -/
theorem putBook_rejects_invalid (env : Env) (id : JsString) (body : ReqBody)
    (hnullish : env.sanitizeHtml .undefined = .ok [])
    (h : body.title = .undefined ∨ body.author = .undefined ∨
      body.published_year = .undefined ∨
      env.sanitizeHtml body.title = .ok [] ∨ env.sanitizeHtml body.author = .ok [] ∨
      parseInt body.published_year = .ok .nan ∨
      (∃ y : Int, parseInt body.published_year = .ok (.int y) ∧
        (y < 0 ∨ y > (env.currentYear : Int))) ∨
      (∃ negative, parseInt body.published_year = .ok (.infinity negative))) :
    ((putBook env id body).trace = [] ∧ (putBook env id body).conn = false) ∧
    ((∃ title, env.sanitizeHtml body.title = .ok title) →
      (∃ author, env.sanitizeHtml body.author = .ok author) →
      (∃ year, parseInt body.published_year = .ok year) →
      ∃ description : String,
        putBook env id body = { response := some ⟨400, .error description⟩ }) := by
  rcases putBook_cases env id body with ⟨title, author, year, ht, ha, hy, htry⟩ | ⟨e, he, hout⟩
  · have hrej : ∃ description : String,
        putBook env id body = { response := some ⟨400, .error description⟩ } := by
      by_cases hm : title = [] ∨ author = [] ∨ year.falsy = true
      · refine ⟨"Title, author, and published year are required", ?_⟩
        rw [putBook, htry, putBookValidate_missing env _ title author year hm]; rfl
      · have hta : title ≠ [] := fun h => hm (Or.inl h)
        have haa : author ≠ [] := fun h => hm (Or.inr (Or.inl h))
        have hf : year.falsy ≠ true := fun h => hm (Or.inr (Or.inr h))
        have hundef : parseInt .undefined = .ok .nan := rfl
        have hr : (∃ y : Int, year = .int y ∧ (y < 0 ∨ y > (env.currentYear : Int))) ∨
            (∃ negative, year = .infinity negative) := by
          rcases h with h | h | h | h | h | h | ⟨y, h, hr⟩ | ⟨b, h⟩
          · rw [h, hnullish] at ht; cases ht; exact absurd rfl hta
          · rw [h, hnullish] at ha; cases ha; exact absurd rfl haa
          · rw [h, hundef] at hy; cases hy; exact absurd rfl hf
          · rw [h] at ht; cases ht; exact absurd rfl hta
          · rw [h] at ha; cases ha; exact absurd rfl haa
          · rw [h] at hy; cases hy; exact absurd rfl hf
          · rw [h] at hy; cases hy; exact Or.inl ⟨y, rfl, hr⟩
          · rw [h] at hy; cases hy; exact Or.inr ⟨b, rfl⟩
        refine ⟨"Invalid published year", ?_⟩
        rw [putBook, htry, putBookValidate_out_of_range env _ title author year hta haa hr]
        rfl
    obtain ⟨description, hd⟩ := hrej
    rw [hd]
    exact ⟨⟨rfl, rfl⟩, fun _ _ _ => ⟨description, rfl⟩⟩
  · rw [hout]
    refine ⟨⟨rfl, rfl⟩, fun ⟨title, ht⟩ ⟨author, ha⟩ ⟨year, hy⟩ => ?_⟩
    rcases he with he | he | he
    · rw [he] at ht; cases ht
    · rw [he] at ha; cases ha
    · rw [he] at hy; cases hy

/-- Witness of C5: a full replace without title. -/
theorem putBook_rejects_invalid_witness :
    ∃ description : String,
      putBook sampleEnv "1".toList
          { author := .string "Frank Herbert".toList, published_year := .number 1965 } =
        { response := some ⟨400, .error description⟩ } :=
  (putBook_rejects_invalid sampleEnv "1".toList
    { author := .string "Frank Herbert".toList, published_year := .number 1965 } rfl
    (Or.inl rfl)).2 ⟨_, rfl⟩ ⟨_, rfl⟩ ⟨_, rfl⟩

/-- Counterexample to C5 as stated: at `PUT /books/1` with body `title: true` (author and
`published_year` missing) the response has status 500, not 400: `sanitizeHtml(true)`
throws before the validation. -/
theorem putBook_boolean_title_500 :
    ({ title := .bool true } : ReqBody).author = .undefined ∧
    (putBook sampleEnv "1".toList { title := .bool true }).response =
      some ⟨500, .error "Internal server error"⟩ ∧
    ¬ (∃ r : Response,
        (putBook sampleEnv "1".toList { title := .bool true }).response = some r ∧
        r.status = 400) := by
  refine ⟨rfl, rfl, ?_⟩
  rintro ⟨r, hr, hs⟩
  have h2 : (some ⟨500, .error "Internal server error"⟩ : Option Response) = some r := hr
  cases h2
  have h4 : (500 : Nat) = 400 := hs
  exact absurd h4 (by decide)

/-! ## Values written by POST and PUT -/

/-- A handler that acquires a connection and issues `s` has no other statement in its
trace, and its response is 500 or the one sent after the query. -/
theorem connect_query_outcome (pool : Pool) (label : String) (s : Statement)
    (f : QueryResult → Response) :
    (∀ s2, Event.query s2 ∈ (catchFinally label (getConnection pool {} (fun c =>
        query pool s c (fun result c => respond (f result) c)))).trace → s2 = s) ∧
    (∀ r, (catchFinally label (getConnection pool {} (fun c =>
        query pool s c (fun result c => respond (f result) c)))).response = some r →
      r = ⟨500, .error "Internal server error"⟩ ∨ ∃ result, r = f result) := by
  unfold getConnection query
  cases pool.getConnection with
  | error e =>
    refine ⟨fun s2 h => ?_, fun r h => ?_⟩
    · simp [catchFinally, finallyRelease] at h
    · simp [catchFinally, finallyRelease, internalServerError] at h
      exact Or.inl h.symm
  | ok u =>
    cases pool.query s with
    | error e =>
      refine ⟨fun s2 h => ?_, fun r h => ?_⟩
      · simp [catchFinally, finallyRelease] at h
        exact h
      · simp [catchFinally, finallyRelease, internalServerError] at h
        exact Or.inl h.symm
    | ok result =>
      refine ⟨fun s2 h => ?_, fun r h => ?_⟩
      · simp [catchFinally, finallyRelease, respond] at h
        exact h
      · simp [catchFinally, finallyRelease, respond] at h
        exact Or.inr ⟨result, h.symm⟩

/-- Whatever `sanitizeHtml` and `parseInt` do, `POST /books` either runs its validation
part on their results or answers 500 without a pool call. -/
theorem postBooks_cases (env : Env) (body : ReqBody) :
    (∃ title author year, env.sanitizeHtml body.title = .ok title ∧
      env.sanitizeHtml body.author = .ok author ∧ parseInt body.published_year = .ok year ∧
      postBooksTry env body = postBooksValidate env title author year) ∨
    (∃ e, postBooks env body =
        { response := some ⟨500, .error "Internal server error"⟩,
          log := [("Error in POST /books:", e)] }) := by
  cases ht : env.sanitizeHtml body.title with
  | error e => exact Or.inr (postBooks_throw env body (Or.inl ⟨e, ht⟩))
  | ok title =>
    cases ha : env.sanitizeHtml body.author with
    | error e => exact Or.inr (postBooks_throw env body (Or.inr (Or.inl ⟨e, ha⟩)))
    | ok author =>
      cases hy : parseInt body.published_year with
      | error e => exact Or.inr (postBooks_throw env body (Or.inr (Or.inr ⟨e, hy⟩)))
      | ok year =>
        exact Or.inl ⟨title, author, year, rfl, rfl, rfl,
          postBooksTry_of_parsed env body title author year ht ha hy⟩

/-- The validation part of `POST /books` ends in a 400 response without a pool call, or
goes on to the INSERT with a non-empty title and author and a year in
`[0, currentYear]`. -/
theorem postBooksValidate_cases (env : Env) (title author : JsString) (year : JsNum) :
    (postBooksValidate env title author year =
        .normal
          { response := some ⟨400, .error "Title, author, and published year are required"⟩ } ∧
      (title = [] ∨ author = [] ∨ year = .nan)) ∨
    (postBooksValidate env title author year =
        .normal { response := some ⟨400, .error "Invalid published year"⟩ } ∧
      title ≠ [] ∧ author ≠ [] ∧
      ((∃ y : Int, year = .int y ∧ (y < 0 ∨ y > (env.currentYear : Int))) ∨
        (∃ negative, year = .infinity negative))) ∨
    (∃ y : Int, year = .int y ∧ title ≠ [] ∧ author ≠ [] ∧ 0 ≤ y ∧
      y ≤ (env.currentYear : Int)) := by
  by_cases hm : title = [] ∨ author = [] ∨ year = .nan
  · exact Or.inl ⟨postBooksValidate_missing env title author year hm, hm⟩
  · have ht : title ≠ [] := fun h => hm (Or.inl h)
    have ha : author ≠ [] := fun h => hm (Or.inr (Or.inl h))
    cases year with
    | nan => exact absurd (Or.inr (Or.inr rfl)) hm
    | infinity negative =>
      exact Or.inr (Or.inl ⟨postBooksValidate_out_of_range env title author _ ht ha
        (Or.inr ⟨negative, rfl⟩), ht, ha, Or.inr ⟨negative, rfl⟩⟩)
    | int y =>
      by_cases hr : y < 0 ∨ y > (env.currentYear : Int)
      · exact Or.inr (Or.inl ⟨postBooksValidate_out_of_range env title author _ ht ha
          (Or.inl ⟨y, rfl, hr⟩), ht, ha, Or.inl ⟨y, rfl, hr⟩⟩)
      · exact Or.inr (Or.inr ⟨y, rfl, ht, ha, by omega, by omega⟩)

/-- Every statement `POST /books` issues is the INSERT of a non-empty sanitized title, a
non-empty sanitized author and an integer year in `[0, currentYear]`. -/
theorem postBooks_writes_valid (env : Env) (body : ReqBody) (s : Statement)
    (h : Event.query s ∈ (postBooks env body).trace) :
    ∃ (title author : JsString) (y : Int),
      env.sanitizeHtml body.title = .ok title ∧ env.sanitizeHtml body.author = .ok author ∧
      parseInt body.published_year = .ok (.int y) ∧
      s = ⟨"INSERT INTO books (title, author, published_year) VALUES (?, ?, ?)",
        [.text title, .text author, .number (.int y)]⟩ ∧
      title ≠ [] ∧ author ≠ [] ∧ 0 ≤ y ∧ y ≤ (env.currentYear : Int) := by
  rcases postBooks_cases env body with ⟨title, author, year, ht, ha, hy, htry⟩ | ⟨e, hout⟩
  · rw [postBooks, htry] at h
    rcases postBooksValidate_cases env title author year with
      ⟨hv, _⟩ | ⟨hv, _⟩ | ⟨y, rfl, hta, haa, h0, h1⟩
    · rw [hv] at h; simp [catchFinally, finallyRelease] at h
    · rw [hv] at h; simp [catchFinally, finallyRelease] at h
    · rw [postBooksValidate_accepted env title author y hta haa h0 h1] at h
      exact ⟨title, author, y, ht, ha, hy,
        (connect_query_outcome env.pool _ _ _).1 s h, hta, haa, h0, h1⟩
  · rw [hout] at h; simp at h

/-- The validation part of `PUT /books/:id` ends in a 400 response without a pool call, or
goes on to the UPDATE with a non-empty title and author and a year in
`[1, currentYear]`. -/
theorem putBookValidate_cases (env : Env) (id : JsNum) (title author : JsString)
    (year : JsNum) :
    (putBookValidate env id title author year =
        .normal
          { response := some ⟨400, .error "Title, author, and published year are required"⟩ } ∧
      (title = [] ∨ author = [] ∨ year = .nan ∨ year = .int 0)) ∨
    (putBookValidate env id title author year =
        .normal { response := some ⟨400, .error "Invalid published year"⟩ } ∧
      title ≠ [] ∧ author ≠ [] ∧
      ((∃ y : Int, year = .int y ∧ (y < 0 ∨ y > (env.currentYear : Int))) ∨
        (∃ negative, year = .infinity negative))) ∨
    (∃ y : Int, year = .int y ∧ title ≠ [] ∧ author ≠ [] ∧ 0 < y ∧
      y ≤ (env.currentYear : Int)) := by
  by_cases hm : title = [] ∨ author = [] ∨ year.falsy = true
  · refine Or.inl ⟨putBookValidate_missing env id title author year hm, ?_⟩
    rcases hm with h | h | h
    · exact Or.inl h
    · exact Or.inr (Or.inl h)
    · cases year with
      | nan => exact Or.inr (Or.inr (Or.inl rfl))
      | infinity negative => cases h
      | int y =>
        have hy : y = 0 := by simpa [JsNum.falsy] using h
        exact Or.inr (Or.inr (Or.inr (by rw [hy])))
  · have ht : title ≠ [] := fun h => hm (Or.inl h)
    have ha : author ≠ [] := fun h => hm (Or.inr (Or.inl h))
    have hf : year.falsy ≠ true := fun h => hm (Or.inr (Or.inr h))
    cases year with
    | nan => exact absurd rfl hf
    | infinity negative =>
      exact Or.inr (Or.inl ⟨putBookValidate_out_of_range env id title author _ ht ha
        (Or.inr ⟨negative, rfl⟩), ht, ha, Or.inr ⟨negative, rfl⟩⟩)
    | int y =>
      have hz : y ≠ 0 := by
        intro h0; rw [h0] at hf; exact hf rfl
      by_cases hr : y < 0 ∨ y > (env.currentYear : Int)
      · exact Or.inr (Or.inl ⟨putBookValidate_out_of_range env id title author _ ht ha
          (Or.inl ⟨y, rfl, hr⟩), ht, ha, Or.inl ⟨y, rfl, hr⟩⟩)
      · exact Or.inr (Or.inr ⟨y, rfl, ht, ha, by omega, by omega⟩)

/-- Every statement `PUT /books/:id` issues is the UPDATE with a non-empty sanitized title,
a non-empty sanitized author and an integer year in `[1, currentYear]`. -/
theorem putBook_writes_valid (env : Env) (id : JsString) (body : ReqBody) (s : Statement)
    (h : Event.query s ∈ (putBook env id body).trace) :
    ∃ (title author : JsString) (y : Int),
      env.sanitizeHtml body.title = .ok title ∧ env.sanitizeHtml body.author = .ok author ∧
      parseInt body.published_year = .ok (.int y) ∧
      s = ⟨"UPDATE books SET title = ?, author = ?, published_year = ? WHERE id = ?",
        [.text title, .text author, .number (.int y), .number (parseIntStr id)]⟩ ∧
      title ≠ [] ∧ author ≠ [] ∧ 0 < y ∧ y ≤ (env.currentYear : Int) := by
  rcases putBook_cases env id body with ⟨title, author, year, ht, ha, hy, htry⟩ | ⟨e, _, hout⟩
  · rw [putBook, htry] at h
    rcases putBookValidate_cases env (parseIntStr id) title author year with
      ⟨hv, _⟩ | ⟨hv, _⟩ | ⟨y, rfl, hta, haa, h0, h1⟩
    · rw [hv] at h; simp [catchFinally, finallyRelease] at h
    · rw [hv] at h; simp [catchFinally, finallyRelease] at h
    · rw [putBookValidate_accepted env _ title author y hta haa h0 h1] at h
      exact ⟨title, author, y, ht, ha, hy,
        (connect_query_outcome env.pool _ _ _).1 s h, hta, haa, h0, h1⟩
  · rw [hout] at h; simp at h

/-! ## PATCH /books/:id on an unparseable year and on the year 0 -/

/-- Claim C1. At `PATCH /books/1` with body `published_year: "abc"` the handler issues an
UPDATE whose update set carries `published_year = NaN`, which is not an integer in
`[0, currentYear]`: the year is written without the `isNaN` test that `POST /books`
applies. -/
theorem patchBook_writes_nan_year :
    (patchBook sampleEnv "1".toList { published_year := .string "abc".toList }).trace =
      [.getConnection,
       .query (updateBookSet { published_year := some .nan } (.int 1)),
       .release] := by
  decide

/-- Claim C3. At `PATCH /books/1` with body `published_year: "abc"` (a supplied year that
does not parse) the handler does not answer 400: it acquires a connection, issues a
statement and answers 200 `Book updated successfully`. -/
theorem patchBook_unparseable_year_not_rejected :
    parseInt (.string "abc".toList) = .ok .nan ∧
    (patchBook sampleEnv "1".toList { published_year := .string "abc".toList }).response =
      some ⟨200, .message "Book updated successfully"⟩ ∧
    (∃ s, Event.query s ∈
      (patchBook sampleEnv "1".toList { published_year := .string "abc".toList }).trace) := by
  refine ⟨rfl, rfl, ⟨updateBookSet { published_year := some .nan } (.int 1), ?_⟩⟩
  decide

/-- Claim C6. At `PATCH /books/:id` with body `published_year: 0` (a year that satisfies
`0 ≤ year ≤ currentYear`) the number 0 is falsy, so the year is left out of the update
set, and the handler answers 400 `No valid fields to update` without issuing an UPDATE;
this holds for every sanitizer, year, pool and id. -/
theorem patchBook_year_zero_rejected (env : Env) (id : JsString) :
    patchBook env id { published_year := .number 0 } =
      { response := some ⟨400, .error "No valid fields to update"⟩ } := by
  rfl

/-- Claim C10. On the body title `Dune`, author `Frank Herbert`, `published_year` 0 the two
routes disagree: `POST /books` accepts it (201, INSERT issued) while `PUT /books/:id`
rejects it with 400 `Title, author, and published year are required`, because `PUT` tests
`!published_year` where `POST` tests `isNaN(published_year)`. -/
theorem put_rejects_year_zero_post_accepts :
    (postBooks sampleEnv ⟨.string "Dune".toList, .string "Frank Herbert".toList, .number 0⟩).response =
      some ⟨201, .created "Book created successfully" 7⟩ ∧
    (putBook sampleEnv "1".toList
        ⟨.string "Dune".toList, .string "Frank Herbert".toList, .number 0⟩).response =
      some ⟨400, .error "Title, author, and published year are required"⟩ := by
  constructor <;> rfl

/-- Apart from a year that parses to 0, `POST /books` and `PUT /books/:id` reject the same
bodies with the same 400 response. -/
theorem post_put_same_rejection (env : Env) (id : JsString) (body : ReqBody)
    (hz : parseInt body.published_year ≠ .ok (.int 0)) (r : Response) (hr : r.status = 400) :
    (postBooks env body).response = some r ↔ (putBook env id body).response = some r := by
  have h500 : ∀ (c : Ctx), c.response = some ⟨500, .error "Internal server error"⟩ →
      ¬ c.response = some r := by
    intro c hc h
    rw [hc] at h
    cases h
    have h4 : (500 : Nat) = 400 := hr
    exact absurd h4 (by decide)
  rcases putBook_cases env id body with ⟨title, author, year, ht, ha, hy, hput⟩ | ⟨e, he, hput⟩
  · have hpost := postBooksTry_of_parsed env body title author year ht ha hy
    rw [postBooks, putBook, hpost, hput]
    have hyear0 : year ≠ .int 0 := by
      intro h0; rw [h0] at hy; exact hz hy
    rcases postBooksValidate_cases env title author year with
      ⟨h1, hm⟩ | ⟨h1, hta, haa, hrange⟩ | ⟨y, rfl, hta, haa, h0, hle⟩
    · have hm2 : title = [] ∨ author = [] ∨ year.falsy = true := by
        rcases hm with h | h | h
        · exact Or.inl h
        · exact Or.inr (Or.inl h)
        · exact Or.inr (Or.inr (by rw [h]; rfl))
      rw [h1, putBookValidate_missing env _ title author year hm2]
      exact Iff.rfl
    · rw [h1, putBookValidate_out_of_range env _ title author year hta haa hrange]
      exact Iff.rfl
    · have hpos : 0 < y := by
        rcases lt_or_eq_of_le h0 with h | h
        · exact h
        · exact absurd (by rw [← h]) hyear0
      rw [postBooksValidate_accepted env title author y hta haa h0 hle,
        putBookValidate_accepted env _ title author y hta haa hpos hle]
      constructor
      · intro h
        rcases (connect_query_outcome env.pool _ _ _).2 r h with h2 | ⟨result, h2⟩
        · rw [h2] at hr; exact absurd (show (500 : Nat) = 400 from hr) (by decide)
        · rw [h2] at hr; exact absurd (show (201 : Nat) = 400 from hr) (by decide)
      · intro h
        rcases (connect_query_outcome env.pool _ _ _).2 r h with h2 | ⟨result, h2⟩
        · rw [h2] at hr; exact absurd (show (500 : Nat) = 400 from hr) (by decide)
        · rw [h2] at hr; exact absurd (show (200 : Nat) = 400 from hr) (by decide)
  · have hthrow : (∃ e, env.sanitizeHtml body.title = .error e) ∨
        (∃ e, env.sanitizeHtml body.author = .error e) ∨
        (∃ e, parseInt body.published_year = .error e) := by
      rcases he with h | h | h
      · exact Or.inl ⟨e, h⟩
      · exact Or.inr (Or.inl ⟨e, h⟩)
      · exact Or.inr (Or.inr ⟨e, h⟩)
    obtain ⟨e2, hpost⟩ := postBooks_throw env body hthrow
    constructor
    · intro h; exact absurd h (h500 _ (by rw [hpost]))
    · intro h; exact absurd h (h500 _ (by rw [hput]))

/-- With a year that parses to an integer in `[1, currentYear]` and a sanitizer that
returns on the truthy title and author, `PATCH /books/:id` issues one UPDATE whose update
set holds that year and the sanitized title and author of the truthy fields, and answers
200. -/
theorem patchBook_sets_supplied_fields (env : Env) (id : JsString) (body : ReqBody) (y : Int)
    (title author : JsString) (result : QueryResult)
    (hy : parseInt body.published_year = .ok (.int y)) (h0 : 0 < y)
    (h1 : y ≤ (env.currentYear : Int))
    (htitle : truthy body.title = true → env.sanitizeHtml body.title = .ok title)
    (hauthor : truthy body.author = true → env.sanitizeHtml body.author = .ok author)
    (hconn : env.pool.getConnection = .ok ())
    (hquery : env.pool.query ⟨"UPDATE books SET ? WHERE id = ?",
      [.updates
        { title := if truthy body.title then some title else none,
          author := if truthy body.author then some author else none,
          published_year := some (.int y) },
       .number (parseIntStr id)]⟩ = .ok result) :
    patchBook env id body =
      { conn := true,
        trace := [.getConnection,
          .query ⟨"UPDATE books SET ? WHERE id = ?",
            [.updates
              { title := if truthy body.title then some title else none,
                author := if truthy body.author then some author else none,
                published_year := some (.int y) },
             .number (parseIntStr id)]⟩,
          .release],
        response := some ⟨200, .message "Book updated successfully"⟩ } := by
  have ht := truthy_of_parseInt_ne_zero _ y hy (by omega)
  have hc : ((JsNum.int y).lt 0 || (JsNum.int y).gt env.currentYear) = false := by
    simp [JsNum.lt, JsNum.gt, h1]
    omega
  cases hti : truthy body.title <;> cases hau : truthy body.author <;>
    simp [hti, hau] at hquery htitle hauthor <;>
    simp [patchBook, patchBookTry, patchBookAuthor, patchBookYear, patchBookSend,
      sanitizeHtml, evalParseInt, updateBookSet, Updates.keyCount, ht, hy, hc, hti, hau,
      htitle, hauthor, getConnection, query, hconn, hquery, respond, catchFinally,
      finallyRelease]

/-! ## Sample runs of the release discipline and of the error mapping -/

/-- Witness of C7 on three paths of `POST /books`: success, failed acquisition, failed
query. -/
theorem release_exactly_once_witness :
    (handle sampleEnv (.postBooks duneBody)).trace.count Event.release = 1 ∧
    (Event.release ∉ (handle ⟨plainText, 2024, downPool "ECONNREFUSED"⟩ (.postBooks duneBody)).trace ∧
      (handle ⟨plainText, 2024, downPool "ECONNREFUSED"⟩ (.postBooks duneBody)).response =
        some ⟨500, .error "Internal server error"⟩) := by
  refine ⟨?_, ?_⟩
  · obtain ⟨qs, _, _, h⟩ :=
      (release_exactly_once sampleEnv (.postBooks duneBody)).1 (by decide) rfl
    exact h
  · exact (release_exactly_once ⟨plainText, 2024, downPool "ECONNREFUSED"⟩
      (.postBooks duneBody)).2.2 (by decide) "ECONNREFUSED" rfl

/-- Witness of C9: two different failures of `DELETE /books/1` get the same response. -/
theorem error_response_uniform_witness :
    (handle ⟨plainText, 2024, downPool "ECONNREFUSED"⟩ (.deleteBook "1".toList)).response =
      some ⟨500, .error "Internal server error"⟩ ∧
    (handle ⟨plainText, 2024, brokenPool "ER_NO_SUCH_TABLE"⟩ (.deleteBook "1".toList)).response =
      some ⟨500, .error "Internal server error"⟩ :=
  ⟨(error_response_uniform ⟨plainText, 2024, downPool "ECONNREFUSED"⟩
      (.deleteBook "1".toList)).1 "ECONNREFUSED" (by decide) rfl,
   (error_response_uniform ⟨plainText, 2024, brokenPool "ER_NO_SUCH_TABLE"⟩
      (.deleteBook "1".toList)).2 ⟨"DELETE FROM books WHERE id = ?", [.number (.int 1)]⟩
      "ER_NO_SUCH_TABLE" (by decide) rfl⟩

end BookApi
